import Mathlib

/-!
Shallow embedding of the Grompt prompt-optimizer core
(`Grompt.py`, `prompt_canvas.py`, `streamlit_app.py`).

Strings are Lean `String`; the Python primitives used by the code
(`str.strip`, `str.join`, `str.split`) are modelled at the character-list
level.  The external provider (`pocketgroq.GroqProvider`) is passed in as
data: the outcome of constructing the provider and the outcome of its
`generate` call are parameters, and `rephrase_prompt` additionally returns
the list of arguments of every `generate` invocation it performed, so that
call counts and call ordering are visible in the model.
-/

/-- Python `str.strip()`: remove leading and trailing whitespace. -/
def pyStrip (s : String) : String :=
  ⟨List.reverse (List.dropWhile Char.isWhitespace
    (List.reverse (List.dropWhile Char.isWhitespace s.data)))⟩

/-- Python `sep.join(ss)`: concatenate `ss` interspersed with `sep`. -/
def pyJoin (sep : String) (ss : List String) : String :=
  ⟨List.intercalate sep.data (ss.map String.data)⟩

/-- Python `text.split(nl)` for a single-character separator `nl` given by
its code point: split into the (possibly empty) pieces between occurrences
of the separator. -/
def pySplitChar (n : Nat) (text : String) : List String :=
  (text.data.splitOn (Char.ofNat n)).map String.mk

/-- `prompt_canvas.PromptCanvas`: a dataclass of eight fields, all of them
required (the library variant declares no default values). -/
structure PromptCanvas where
  persona : String
  audience : String
  task : String
  steps : List String
  context : String
  references : List String
  output_format : String
  tonality : String

/-- `Grompt.get_rephrased_user_prompt`: the plain-branch template.  The
Python source is an indented triple-quoted f-string, so the second and
third lines carry four leading spaces. -/
def get_rephrased_user_prompt (prompt : String) : String :=
  "You are a professional prompt engineer. Optimize this prompt by making it clearer, more concise, and more effective.\n    User request: \"" ++
  prompt ++ "\"\n    Rephrased:"

/-- The steps block of the canvas template:
Python `chr(10).join(f'- {step}' for step in canvas.steps)`. -/
def stepsSection (c : PromptCanvas) : String :=
  pyJoin "\n" (c.steps.map fun step => "- " ++ step)

/-- `Grompt.craft_system_message`: with a (truthy, i.e. non-None) canvas it
renders the multi-section template; otherwise it falls through to
`get_rephrased_user_prompt`. -/
def craft_system_message (canvas : Option PromptCanvas) (prompt : String) : String :=
  match canvas with
  | some c =>
      "You are a " ++ c.persona ++ " focused on delivering results for " ++ c.audience ++
      ".\n\nTask: " ++ c.task ++
      "\n\nStep-by-Step Approach:\n" ++ stepsSection c ++
      "\n\nContext: " ++ c.context ++
      "\n\nReferences: " ++ pyJoin ", " c.references ++
      "\n\nOutput Requirements:\n- Format: " ++ c.output_format ++
      "\n- Tone: " ++ c.tonality
  | none => get_rephrased_user_prompt prompt

/-- `Grompt.rephrase_prompt`.  The whole body sits in one `try` block:
first the provider is constructed (`GroqProvider()`, outcome
`providerInit`), then the instruction is built, then `generate` is called
once, and the response is stripped; any error escaping the block is
re-raised as `Exception("Prompt engineering error: " + str(e))`.  The
second component of the result records the argument tuples of the
`generate` calls actually performed. -/
def rephrase_prompt {Model Temp Tok : Type}
    (providerInit : Except String Unit)
    (generate : String → Model → Temp → Tok → Except String String)
    (prompt : String) (model : Model) (temperature : Temp) (max_tokens : Tok)
    (canvas : Option PromptCanvas) :
    Except String String × List (String × Model × Temp × Tok) :=
  match providerInit with
  | .error e => (.error ("Prompt engineering error: " ++ e), [])
  | .ok _ =>
      let system_message := craft_system_message canvas prompt
      match generate system_message model temperature max_tokens with
      | .ok response =>
          (.ok (pyStrip response), [(system_message, model, temperature, max_tokens)])
      | .error e =>
          (.error ("Prompt engineering error: " ++ e),
           [(system_message, model, temperature, max_tokens)])

/-- `s` contains the given strings in order, each occurrence beginning
after the end of the previous one. -/
def containsInOrder (s : String) : List String → Prop
  | [] => True
  | p :: ps => ∃ a b, s = a ++ p ++ b ∧ containsInOrder b ps

/-- The lines of the rendered steps block that are bulleted, i.e. that
start with the bullet marker "- ". -/
def bulletLines (c : PromptCanvas) : List String :=
  (pySplitChar 10 (stepsSection c)).filter fun l => ("- ".data).isPrefixOf l.data

namespace StreamlitApp

/-- `streamlit_app.PromptCanvas`: the UI-side dataclass.  Its string
fields default to the empty string, while `steps` and `references` are
declared `List[str] = None`, so their default value is `None`, modelled as
`Option` with default `none`. -/
structure PromptCanvas where
  persona : String := ""
  audience : String := ""
  task : String := ""
  steps : Option (List String) := none
  context : String := ""
  references : Option (List String) := none
  output_format : String := ""
  tonality : String := ""

/-- The advanced-mode list-field conversion in `streamlit_app.py`:
Python `[s.strip() for s in text.split(chr(10)) if s.strip()]`. -/
def parse_list_field (text : String) : List String :=
  ((pySplitChar 10 text).filter fun s => pyStrip s != "").map pyStrip

end StreamlitApp

/-- C1: the spec says a missing or empty provider credential is surfaced
as a precondition failure before any provider call and is never raised as
the wrapped GenerationError.  In `rephrase_prompt` the provider is
constructed inside the catch-all `try` block, so with no credential
configured the construction failure is re-raised exactly as the wrapped
generic error: the claim is false. -/
theorem C1_counterexample :
    (rephrase_prompt (Except.error "Groq API key is not provided")
      (fun (_ : String) (_ : String) (_ : Nat) (_ : Nat) =>
        (Except.error "unreachable" : Except String String))
      "write a poem" "llama-3.3-70b-versatile" 5 1024 none).1
      = Except.error "Prompt engineering error: Groq API key is not provided" := rfl

/-- C1 (amended): every failure coming out of `rephrase_prompt`, the
missing-credential failure of the provider constructor included, is of the
single wrapped GenerationError kind; the precondition check that surfaces
a missing credential before any call exists only in the interactive
surface, outside `rephrase_prompt`. -/
theorem C1_amended {Model Temp Tok : Type}
    (providerInit : Except String Unit)
    (generate : String → Model → Temp → Tok → Except String String)
    (prompt : String) (model : Model) (temperature : Temp) (max_tokens : Tok)
    (canvas : Option PromptCanvas) (msg : String)
    (h : (rephrase_prompt providerInit generate prompt model temperature max_tokens canvas).1
          = Except.error msg) :
    ∃ e, msg = "Prompt engineering error: " ++ e := by
  cases providerInit with
  | error e =>
      refine ⟨e, ?_⟩
      simp only [rephrase_prompt, Except.error.injEq] at h
      exact h.symm
  | ok u =>
      cases hg : generate (craft_system_message canvas prompt) model temperature max_tokens with
      | ok r =>
          simp [rephrase_prompt, hg] at h
      | error e =>
          refine ⟨e, ?_⟩
          simp only [rephrase_prompt, hg, Except.error.injEq] at h
          exact h.symm

/-- C1 (amended) witness at a concrete failing environment. -/
theorem C1_amended_witness :
    ((rephrase_prompt (Except.error "Groq API key is not provided")
        (fun (_ : String) (_ : String) (_ : Nat) (_ : Nat) =>
          (Except.error "unreachable" : Except String String))
        "write a poem" "llama-3.3-70b-versatile" 5 1024 none).1
        = Except.error "Prompt engineering error: Groq API key is not provided")
    ∧ ∃ e, "Prompt engineering error: Groq API key is not provided"
        = "Prompt engineering error: " ++ e :=
  ⟨rfl, C1_amended (Except.error "Groq API key is not provided")
    (fun (_ : String) (_ : String) (_ : Nat) (_ : Nat) =>
      (Except.error "unreachable" : Except String String))
    "write a poem" "llama-3.3-70b-versatile" 5 1024 none
    "Prompt engineering error: Groq API key is not provided" rfl⟩

/-- C2: any failure of the provider call is re-raised as exactly one
generic GenerationError whose message contains the original description;
the result trace shows a single `generate` call whose argument is the
fully built instruction, so instruction building completed before the call
and nothing was retried. -/
theorem C2_provider_failure_wrapped {Model Temp Tok : Type}
    (generate : String → Model → Temp → Tok → Except String String)
    (prompt : String) (model : Model) (temperature : Temp) (max_tokens : Tok)
    (canvas : Option PromptCanvas) (e : String)
    (h : generate (craft_system_message canvas prompt) model temperature max_tokens
          = Except.error e) :
    rephrase_prompt (Except.ok ()) generate prompt model temperature max_tokens canvas
      = (Except.error ("Prompt engineering error: " ++ e),
         [(craft_system_message canvas prompt, model, temperature, max_tokens)])
    ∧ ∃ a b, "Prompt engineering error: " ++ e = a ++ e ++ b := by
  refine ⟨by simp [rephrase_prompt, h], "Prompt engineering error: ", "", ?_⟩
  simp

/-- C2 witness: a stubbed provider raising "boom". -/
theorem C2_provider_failure_wrapped_witness :
    ((fun (_ : String) (_ : String) (_ : Nat) (_ : Nat) =>
        (Except.error "boom" : Except String String))
      (craft_system_message none "write a poem") "llama-3.3-70b-versatile" 5 1024
      = Except.error "boom")
    ∧ (rephrase_prompt (Except.ok ())
        (fun (_ : String) (_ : String) (_ : Nat) (_ : Nat) =>
          (Except.error "boom" : Except String String))
        "write a poem" "llama-3.3-70b-versatile" 5 1024 none
        = (Except.error ("Prompt engineering error: " ++ "boom"),
           [(craft_system_message none "write a poem", "llama-3.3-70b-versatile", 5, 1024)])
       ∧ ∃ a b, "Prompt engineering error: " ++ "boom" = a ++ "boom" ++ b) :=
  ⟨rfl, C2_provider_failure_wrapped _ _ _ _ _ _ _ rfl⟩

/-- C3: for every non-empty raw prompt p the plain-branch instruction
contains p verbatim and ends with "Rephrased:" with nothing after it. -/
theorem C3_plain_branch (p : String) (h : p ≠ "") :
    (∃ a b, get_rephrased_user_prompt p = a ++ p ++ b) ∧
    ∃ a, get_rephrased_user_prompt p = a ++ "Rephrased:" := by
  constructor
  · exact ⟨"You are a professional prompt engineer. Optimize this prompt by making it clearer, more concise, and more effective.\n    User request: \"",
      "\"\n    Rephrased:", rfl⟩
  · refine ⟨"You are a professional prompt engineer. Optimize this prompt by making it clearer, more concise, and more effective.\n    User request: \""
      ++ p ++ "\"\n    ", ?_⟩
    unfold get_rephrased_user_prompt
    rw [(by decide : ("\"\n    Rephrased:" : String) = "\"\n    " ++ "Rephrased:")]
    simp only [String.append_assoc]

/-- C3 witness at the prompt "write a poem". -/
theorem C3_plain_branch_witness :
    ("write a poem" : String) ≠ "" ∧
    ((∃ a b, get_rephrased_user_prompt "write a poem" = a ++ "write a poem" ++ b) ∧
     ∃ a, get_rephrased_user_prompt "write a poem" = a ++ "Rephrased:") :=
  ⟨by decide, C3_plain_branch "write a poem" (by decide)⟩

/-- C4: when a canvas is supplied the built instruction is independent of
the raw prompt (the canvas branch never reads the prompt argument). -/
theorem C4_canvas_precedence (c : PromptCanvas) (p1 p2 : String) :
    craft_system_message (some c) p1 = craft_system_message (some c) p2 := rfl

/-- C5: for every canvas, the built instruction contains, in this order,
the persona+audience role-setting sentence and the labeled sections
Task:, Step-by-Step Approach:, Context:, References:,
Output Requirements:. -/
theorem C5_canvas_sections_in_order (c : PromptCanvas) (p : String) :
    containsInOrder (craft_system_message (some c) p)
      ["You are a " ++ c.persona ++ " focused on delivering results for " ++ c.audience ++ ".",
       "Task:", "Step-by-Step Approach:", "Context:", "References:",
       "Output Requirements:"] := by
  have key : craft_system_message (some c) p =
      "" ++ ("You are a " ++ c.persona ++ " focused on delivering results for "
             ++ c.audience ++ ".") ++
      ("\n\n" ++ "Task:" ++
       (" " ++ c.task ++ "\n\n" ++ "Step-by-Step Approach:" ++
        ("\n" ++ stepsSection c ++ "\n\n" ++ "Context:" ++
         (" " ++ c.context ++ "\n\n" ++ "References:" ++
          (" " ++ pyJoin ", " c.references ++ "\n\n" ++ "Output Requirements:" ++
           ("\n- Format: " ++ c.output_format ++ "\n- Tone: " ++ c.tonality)))))) := by
    simp only [craft_system_message]
    rw [(by decide : (".\n\nTask: " : String) = "." ++ "\n\n" ++ "Task:" ++ " "),
        (by decide : ("\n\nStep-by-Step Approach:\n" : String)
          = "\n\n" ++ "Step-by-Step Approach:" ++ "\n"),
        (by decide : ("\n\nContext: " : String) = "\n\n" ++ "Context:" ++ " "),
        (by decide : ("\n\nReferences: " : String) = "\n\n" ++ "References:" ++ " "),
        (by decide : ("\n\nOutput Requirements:\n- Format: " : String)
          = "\n\n" ++ "Output Requirements:" ++ "\n- Format: ")]
    simp only [String.append_assoc, String.empty_append]
  rw [key]
  exact ⟨_, _, rfl, _, _, rfl, _, _, rfl, _, _, rfl, _, _, rfl, _, _, rfl, trivial⟩

/-- C6: the claim that the steps block shows exactly one bulleted line per
element of steps fails when a step itself contains a newline followed by a
bullet marker: the single element "a\n- b" renders as the two bulleted
lines "- a" and "- b". -/
theorem C6_counterexample :
    ¬ (bulletLines (PromptCanvas.mk "p" "a" "t" ["a\n- b"] "c" [] "f" "tn")
        = (PromptCanvas.mk "p" "a" "t" ["a\n- b"] "c" [] "f" "tn").steps.map
            fun s => "- " ++ s) := by decide

/-- C6 (amended): for every canvas whose steps contain no newline
character, the lines of the steps block that carry the bullet marker are
exactly "- s" for the elements s of steps, in order; in particular an
empty steps sequence yields no bulleted lines. -/
theorem C6_amended (c : PromptCanvas)
    (h : ∀ s ∈ c.steps, Char.ofNat 10 ∉ s.data) :
    bulletLines c = c.steps.map fun s => "- " ++ s := by
  by_cases hne : c.steps = []
  · obtain ⟨pe, au, ta, st, co, re, fo, tn⟩ := c
    simp only at hne
    subst hne
    rfl
  · have hd : ("\n" : String).data = [Char.ofNat 10] := by decide
    have hmain : pySplitChar 10 (stepsSection c) = c.steps.map fun s => "- " ++ s := by
      unfold pySplitChar stepsSection pyJoin
      rw [hd]
      rw [List.splitOn_intercalate ((c.steps.map fun s => "- " ++ s).map String.data)
            (Char.ofNat 10)]
      · simp only [List.map_map]
        have hmk : (String.mk ∘ String.data) = id := by
          funext s
          rfl
        simp [hmk]
        intro a _
        rfl
      · intro l hl
        simp only [List.map_map, List.mem_map] at hl
        obtain ⟨s, hs, rfl⟩ := hl
        simp only [Function.comp]
        intro hmem
        have hnl := h s hs
        have hdat : (("- " ++ s).data) = "- ".data ++ s.data := by
          simp [String.data_append]
        rw [hdat] at hmem
        rcases List.mem_append.mp hmem with h1 | h2
        · revert h1
          decide
        · exact hnl h2
      · simp only [ne_eq, List.map_eq_nil_iff]
        intro hc
        exact hne (by simpa using hc)
    unfold bulletLines
    rw [hmain]
    apply List.filter_eq_self.mpr
    intro l hl
    obtain ⟨s, hs, rfl⟩ := List.mem_map.mp hl
    show ("- ".data).isPrefixOf (("- " ++ s).data) = true
    have hdat : (("- " ++ s).data) = Char.ofNat 45 :: Char.ofNat 32 :: s.data := rfl
    rw [hdat]
    simp [List.isPrefixOf]

/-- C6 (amended) witness: steps ["a","b","c"] yield exactly the bulleted
lines "- a", "- b", "- c" in order. -/
theorem C6_amended_witness :
    (∀ s ∈ (PromptCanvas.mk "p" "a" "t" ["a", "b", "c"] "c" [] "f" "tn").steps,
        Char.ofNat 10 ∉ s.data)
    ∧ bulletLines (PromptCanvas.mk "p" "a" "t" ["a", "b", "c"] "c" [] "f" "tn")
        = (PromptCanvas.mk "p" "a" "t" ["a", "b", "c"] "c" [] "f" "tn").steps.map
            fun s => "- " ++ s :=
  ⟨by decide, C6_amended _ (by decide)⟩

/-- C7: on a successful provider call, `rephrase_prompt` returns exactly
the returned text with surrounding whitespace stripped, after a single
`generate` call on the built instruction. -/
theorem C7_success_strips {Model Temp Tok : Type}
    (generate : String → Model → Temp → Tok → Except String String)
    (prompt : String) (model : Model) (temperature : Temp) (max_tokens : Tok)
    (canvas : Option PromptCanvas) (r : String)
    (h : generate (craft_system_message canvas prompt) model temperature max_tokens
          = Except.ok r) :
    rephrase_prompt (Except.ok ()) generate prompt model temperature max_tokens canvas
      = (Except.ok (pyStrip r),
         [(craft_system_message canvas prompt, model, temperature, max_tokens)]) := by
  simp [rephrase_prompt, h]

/-- C7 witness: a provider response "  hi  " yields the result "hi". -/
theorem C7_success_strips_witness :
    ((fun (_ : String) (_ : String) (_ : Nat) (_ : Nat) =>
        (Except.ok "  hi  " : Except String String))
      (craft_system_message none "write a poem") "llama-3.3-70b-versatile" 5 1024
      = Except.ok "  hi  ")
    ∧ rephrase_prompt (Except.ok ())
        (fun (_ : String) (_ : String) (_ : Nat) (_ : Nat) =>
          (Except.ok "  hi  " : Except String String))
        "write a poem" "llama-3.3-70b-versatile" 5 1024 none
        = (Except.ok "hi",
           [(craft_system_message none "write a poem", "llama-3.3-70b-versatile", 5, 1024)]) := by
  refine ⟨rfl, ?_⟩
  rw [C7_success_strips
    (fun (_ : String) (_ : String) (_ : Nat) (_ : Nat) =>
      (Except.ok "  hi  " : Except String String))
    "write a poem" "llama-3.3-70b-versatile" 5 1024 none "  hi  " rfl]
  rw [(by decide : pyStrip "  hi  " = "hi")]

/-- C8: the claim that a UI-side PromptCanvas built with no field values
has every sequence field equal to the empty sequence fails: steps and
references default to None, not to the empty sequence. -/
theorem C8_counterexample :
    ¬ (({} : StreamlitApp.PromptCanvas).steps = some [] ∧
       ({} : StreamlitApp.PromptCanvas).references = some []) := by decide

/-- C8 (amended): in the UI-side PromptCanvas the string fields default to
the empty string while steps and references default to None; the
library-side PromptCanvas declares no defaults at all. -/
theorem C8_amended :
    ({} : StreamlitApp.PromptCanvas)
      = StreamlitApp.PromptCanvas.mk "" "" "" none "" none "" "" := rfl

/-- C9: the advanced-mode list fields are split on newlines, trimmed,
emptied lines discarded in order; every element of the result is
non-empty. -/
theorem C9_no_empty_entries (text : String) (s : String)
    (h : s ∈ StreamlitApp.parse_list_field text) : s ≠ "" := by
  unfold StreamlitApp.parse_list_field at h
  obtain ⟨t, ht, rfl⟩ := List.mem_map.mp h
  have hf := (List.mem_filter.mp ht).2
  simpa using hf

/-- C9 witness on the text "a\n \nb". -/
theorem C9_no_empty_entries_witness :
    ("a" ∈ StreamlitApp.parse_list_field "a\n \nb") ∧ ("a" : String) ≠ "" :=
  ⟨by decide, C9_no_empty_entries "a\n \nb" "a" (by decide)⟩
